import Mathlib

/-!
Shallow embedding of the ESP32-C3 GPIO-monitor sketch
(`src/ESP32-C3-Mini-WebserverGPIOmonitor02.ino`) and proofs about its
connectivity lifecycle, credential store, captive resolver, connection
wait loop and JSON endpoint.

Modelling conventions:
* NVS (the `Preferences` "wifi" namespace) is a pair of optional strings,
  one per key; `getString(key, "")` is `Option.getD "" `.
* The radio environment is an oracle: for the state-level model a single
  `Bool` saying whether the attempt associates before the deadline; for
  the wait-loop model a sequence `Nat → Bool` of successive
  `WiFi.status() == WL_CONNECTED` readings.
* `connectAttempts` instruments the state with the number of times
  `connectToWiFi` has been invoked, so that "without invoking the station
  connector" is expressible.
-/

namespace Esp32Gpio

/-- Lines 24-25: `const int GPIO_PINS[] = {0, 1, 3, 4, 5};`. -/
def GPIO_PINS : List Nat := [0, 1, 3, 4, 5]

/-- Line 25: `const int NUM_PINS = 5;`. -/
def NUM_PINS : Nat := 5

/-- Line 49: `const unsigned long WIFI_TIMEOUT = 10000;` (milliseconds). -/
def WIFI_TIMEOUT : Nat := 10000

/-- A submitted or stored network identity (SSID and password). -/
structure NetworkIdentity where
  name : String
  secret : String
deriving DecidableEq

/-- The `Preferences` "wifi" namespace: the `ssid` and `password` keys,
each present or absent. -/
structure NVS where
  ssid : Option String
  password : Option String
deriving DecidableEq

/-- Lines 122-134 `loadCredentials`: `preferences.getString("ssid", "")`
and `preferences.getString("password", "")`, returning the global pair
`(ssid, password)` it assigns. -/
def loadCredentials (nvs : NVS) : String × String :=
  (nvs.ssid.getD "", nvs.password.getD "")

/-- Lines 136-140 `saveCredentials`, NVS part: `putString("ssid", newSSID)`
and `putString("password", newPassword)`. -/
def saveCredentials (nvs : NVS) (newSSID newPassword : String) : NVS :=
  ⟨some newSSID, some newPassword⟩

/-- Lines 531-533 in `handleReset`: `preferences.clear()` erases every key
of the "wifi" namespace. -/
def clearedNVS : NVS := ⟨none, none⟩

/-- The device state visible to the claims: the NVS contents, the RAM
globals `ssid`/`password` (lines 38-39), the `configMode` flag (line 46),
the station radio's association state, the soft-AP and DNS-server
activity, and the instrumentation counter of `connectToWiFi` calls. -/
structure DeviceState where
  nvs : NVS
  ssid : String
  password : String
  configMode : Bool
  wifiConnected : Bool
  apActive : Bool
  dnsActive : Bool
  connectAttempts : Nat
deriving DecidableEq

/-- Lines 136-146 `saveCredentials`, full effect: write both NVS keys and
update the RAM globals `ssid`/`password`. -/
def saveCredentialsState (s : DeviceState) (newSSID newPassword : String) : DeviceState :=
  { s with nvs := saveCredentials s.nvs newSSID newPassword,
           ssid := newSSID, password := newPassword }

/-- Lines 148-173 `connectToWiFi`, state-level abstraction. `ok` is the
radio oracle: whether the attempt associates before the deadline.
`WiFi.mode(WIFI_STA)` disables the soft AP; on success (`status ==
WL_CONNECTED` after the wait loop) the function sets `configMode = false`
and returns `true`; on failure it calls `WiFi.disconnect()` and returns
`false`. The attempt counter is incremented exactly once per call. -/
def connectToWiFi (ok : Bool) (s : DeviceState) : Bool × DeviceState :=
  let s1 : DeviceState := { s with apActive := false, connectAttempts := s.connectAttempts + 1 }
  if ok then (true, { s1 with wifiConnected := true, configMode := false })
  else (false, { s1 with wifiConnected := false })

/-- Lines 175-200 `startConfigPortal`: set `configMode = true`,
`WiFi.disconnect()`, `WiFi.mode(WIFI_AP)` + `WiFi.softAP(...)`, and
`dnsServer.start(DNS_PORT, "*", WiFi.softAPIP())`. -/
def startConfigPortal (s : DeviceState) : DeviceState :=
  { s with configMode := true, wifiConnected := false, apActive := true, dnsActive := true }

/-- State at the top of `setup` after `loadCredentials` (lines 51-61):
globals hold the loaded pair, no mode flag set, radio idle. -/
def initState (nvs : NVS) : DeviceState :=
  ⟨nvs, (loadCredentials nvs).1, (loadCredentials nvs).2, false, false, false, false, 0⟩

/-- Lines 62-73 of `setup`: `if (ssid.length() > 0)` try the stored
credential and fall back to the portal on failure, else start the portal
directly. -/
def setup (nvs : NVS) (radioOk : Bool) : DeviceState :=
  if 0 < (loadCredentials nvs).1.length then
    if (connectToWiFi radioOk (initState nvs)).1 then
      (connectToWiFi radioOk (initState nvs)).2
    else
      startConfigPortal (connectToWiFi radioOk (initState nvs)).2
  else
    startConfigPortal (initState nvs)

/-- Lines 462-470 of `handleConnect`: save the submitted credentials
unconditionally, then `dnsServer.stop()` and `WiFi.softAPdisconnect(true)`,
leaving the state on which the connection attempt runs. -/
def submittedState (s : DeviceState) (newSSID newPassword : String) : DeviceState :=
  { saveCredentialsState s newSSID newPassword with dnsActive := false, apActive := false }

/-- Lines 427-485 `handleConnect` (state effect): read the submitted
`ssid`/`password` arguments, send the page, save the credentials
unconditionally, stop the DNS server and the soft AP, attempt the
connection, and on failure restart the portal (on success `configMode =
false`). -/
def handleConnect (radioOk : Bool) (newSSID newPassword : String) (s : DeviceState) : DeviceState :=
  if (connectToWiFi radioOk (submittedState s newSSID newPassword)).1 then
    { (connectToWiFi radioOk (submittedState s newSSID newPassword)).2 with configMode := false }
  else
    startConfigPortal (connectToWiFi radioOk (submittedState s newSSID newPassword)).2

/-- Lines 504-542 `handleReset`: `preferences.clear()` then
`ESP.restart()`; the restart re-runs `setup` against the cleared NVS
(with a fresh radio oracle for the new boot). -/
def handleReset (radioOk : Bool) (s : DeviceState) : DeviceState :=
  setup clearedNVS radioOk

/-- Radio environment between ticks: a link loss drops the station
association (this is what makes `WiFi.status() != WL_CONNECTED` read true
at line 100). -/
def observeLink (linkLost : Bool) (s : DeviceState) : DeviceState :=
  { s with wifiConnected := s.wifiConnected && !linkLost }

/-- Lines 92-110 `loop`, one tick with no pending HTTP request:
`dnsServer.processNextRequest()` when in config mode (resolver state is
modelled separately), then `if (!configMode && WiFi.status() !=
WL_CONNECTED)` reconnect and fall back to the portal on failure. -/
def loopTick (linkLost radioOk : Bool) (s : DeviceState) : DeviceState :=
  if !(observeLink linkLost s).configMode && !(observeLink linkLost s).wifiConnected then
    if (connectToWiFi radioOk (observeLink linkLost s)).1 then
      (connectToWiFi radioOk (observeLink linkLost s)).2
    else
      startConfigPortal (connectToWiFi radioOk (observeLink linkLost s)).2
  else
    observeLink linkLost s

/-- The four connectivity modes of the spec. -/
inductive ConnectivityMode where
  | Uninitialized
  | Connecting
  | Connected
  | PortalActive
deriving DecidableEq

/-- The observable mode, derived from the code's flags: `configMode`
selects the portal, otherwise the station association decides between
`Connected` and `Uninitialized` (`Connecting` is only transient inside
the blocking `connectToWiFi`, never between operations). -/
def currentMode (s : DeviceState) : ConnectivityMode :=
  if s.configMode then ConnectivityMode.PortalActive
  else if s.wifiConnected then ConnectivityMode.Connected
  else ConnectivityMode.Uninitialized

/-- One externally triggered operation of the sketch. -/
inductive Step : DeviceState → DeviceState → Prop
  | tick (linkLost radioOk : Bool) (s : DeviceState) : Step s (loopTick linkLost radioOk s)
  | submit (radioOk : Bool) (n p : String) (s : DeviceState) :
      Step s (handleConnect radioOk n p s)
  | reset (radioOk : Bool) (s : DeviceState) : Step s (handleReset radioOk s)

/-- States reachable from some boot through the sketch's operations. -/
inductive Reachable : DeviceState → Prop
  | boot (nvs : NVS) (radioOk : Bool) : Reachable (setup nvs radioOk)
  | step {s t : DeviceState} : Reachable s → Step s t → Reachable t

/-- The mode-exclusion invariant on the code's two flags. -/
def FlagsExclusive (s : DeviceState) : Prop :=
  s.configMode = true → s.wifiConnected = false

lemma flagsExclusive_startConfigPortal (s : DeviceState) :
    FlagsExclusive (startConfigPortal s) := by
  simp [FlagsExclusive, startConfigPortal]

lemma flagsExclusive_connectToWiFi (ok : Bool) (s : DeviceState) :
    FlagsExclusive (connectToWiFi ok s).2 := by
  cases ok <;> simp [FlagsExclusive, connectToWiFi]

lemma flagsExclusive_setup (nvs : NVS) (radioOk : Bool) :
    FlagsExclusive (setup nvs radioOk) := by
  unfold setup
  split
  · split
    · exact flagsExclusive_connectToWiFi radioOk (initState nvs)
    · exact flagsExclusive_startConfigPortal _
  · exact flagsExclusive_startConfigPortal _

lemma flagsExclusive_handleConnect (radioOk : Bool) (n p : String) (s : DeviceState) :
    FlagsExclusive (handleConnect radioOk n p s) := by
  unfold handleConnect
  split
  · intro h
    cases radioOk <;> simp_all [connectToWiFi]
  · exact flagsExclusive_startConfigPortal _

lemma flagsExclusive_handleReset (radioOk : Bool) (s : DeviceState) :
    FlagsExclusive (handleReset radioOk s) :=
  flagsExclusive_setup clearedNVS radioOk

lemma flagsExclusive_loopTick (linkLost radioOk : Bool) (s : DeviceState)
    (h : FlagsExclusive s) : FlagsExclusive (loopTick linkLost radioOk s) := by
  unfold loopTick
  split
  · split
    · exact flagsExclusive_connectToWiFi radioOk _
    · exact flagsExclusive_startConfigPortal _
  · intro hc
    simp only [observeLink] at hc ⊢
    simp [h hc]

lemma flagsExclusive_step {s t : DeviceState} (hst : Step s t) (h : FlagsExclusive s) :
    FlagsExclusive t :=
  match hst with
  | Step.tick linkLost radioOk s => flagsExclusive_loopTick linkLost radioOk s h
  | Step.submit radioOk n p s => flagsExclusive_handleConnect radioOk n p s
  | Step.reset radioOk s => flagsExclusive_handleReset radioOk s

lemma flagsExclusive_of_reachable (s : DeviceState) (h : Reachable s) :
    FlagsExclusive s := by
  induction h with
  | boot nvs radioOk => exact flagsExclusive_setup nvs radioOk
  | step hr hst ih => exact flagsExclusive_step hst ih

lemma mode_char_of_flagsExclusive (s : DeviceState) (h : FlagsExclusive s) :
    ¬(s.wifiConnected = true ∧ s.configMode = true) ∧
    (currentMode s = ConnectivityMode.Connected ↔ s.wifiConnected = true) ∧
    (currentMode s = ConnectivityMode.PortalActive ↔ s.configMode = true) := by
  unfold FlagsExclusive at h
  cases hc : s.configMode <;> cases hw : s.wifiConnected <;>
    simp_all [currentMode]

/-- C3: in every reachable device state the station-connected flag and the
portal-active flag (`configMode`) never hold simultaneously, and
`currentMode` assigns exactly one of the four modes accordingly:
`Connected` exactly when the station is associated, `PortalActive`
exactly when `configMode` is set. -/
theorem reachable_mode_exclusive (s : DeviceState) (h : Reachable s) :
    ¬(s.wifiConnected = true ∧ s.configMode = true) ∧
    (currentMode s = ConnectivityMode.Connected ↔ s.wifiConnected = true) ∧
    (currentMode s = ConnectivityMode.PortalActive ↔ s.configMode = true) :=
  mode_char_of_flagsExclusive s (flagsExclusive_of_reachable s h)

/-- Witness for C3 at the boot state with an empty NVS. -/
theorem reachable_mode_exclusive_witness :
    ¬((setup clearedNVS true).wifiConnected = true ∧ (setup clearedNVS true).configMode = true) ∧
    (currentMode (setup clearedNVS true) = ConnectivityMode.Connected ↔
      (setup clearedNVS true).wifiConnected = true) ∧
    (currentMode (setup clearedNVS true) = ConnectivityMode.PortalActive ↔
      (setup clearedNVS true).configMode = true) :=
  reachable_mode_exclusive (setup clearedNVS true) (Reachable.boot clearedNVS true)

/-- C4: a boot whose loaded credential name is empty starts the portal
directly, never invoking the station connector. -/
theorem boot_no_credential_goes_portal (nvs : NVS) (radioOk : Bool)
    (h : (loadCredentials nvs).1 = "") :
    currentMode (setup nvs radioOk) = ConnectivityMode.PortalActive ∧
    (setup nvs radioOk).connectAttempts = 0 := by
  unfold setup
  rw [h]
  simp [startConfigPortal, initState, currentMode]

/-- Witness for C4: the empty NVS. -/
theorem boot_no_credential_goes_portal_witness :
    currentMode (setup clearedNVS true) = ConnectivityMode.PortalActive ∧
    (setup clearedNVS true).connectAttempts = 0 :=
  boot_no_credential_goes_portal clearedNVS true rfl

/-- C5: `handleReset` clears the stored credential, so the load after the
forced restart returns no credential for either field, and the restarted
device comes up in `PortalActive` mode. -/
theorem handleReset_clears_and_boots_portal (radioOk : Bool) (s : DeviceState) :
    loadCredentials (handleReset radioOk s).nvs = ("", "") ∧
    currentMode (handleReset radioOk s) = ConnectivityMode.PortalActive ∧
    (handleReset radioOk s).nvs = clearedNVS := by
  cases radioOk <;> exact ⟨rfl, rfl, rfl⟩

/-- C6: a main-loop tick taken while `configMode` is set never invokes the
station connector and leaves the device in the portal: the only exits are
the explicit `handleConnect` and `handleReset` operations. -/
theorem portal_tick_no_reconnect (linkLost radioOk : Bool) (s : DeviceState)
    (h : s.configMode = true) :
    (loopTick linkLost radioOk s).connectAttempts = s.connectAttempts ∧
    (loopTick linkLost radioOk s).configMode = true ∧
    currentMode (loopTick linkLost radioOk s) = ConnectivityMode.PortalActive ∧
    (loopTick linkLost radioOk s).nvs = s.nvs := by
  simp [loopTick, observeLink, currentMode, h]

/-- Witness for C6 at a concrete portal state. -/
theorem portal_tick_no_reconnect_witness :
    (loopTick false true ⟨clearedNVS, "", "", true, false, true, true, 0⟩).connectAttempts =
      (⟨clearedNVS, "", "", true, false, true, true, 0⟩ : DeviceState).connectAttempts ∧
    (loopTick false true ⟨clearedNVS, "", "", true, false, true, true, 0⟩).configMode = true ∧
    currentMode (loopTick false true ⟨clearedNVS, "", "", true, false, true, true, 0⟩) =
      ConnectivityMode.PortalActive ∧
    (loopTick false true ⟨clearedNVS, "", "", true, false, true, true, 0⟩).nvs = clearedNVS :=
  portal_tick_no_reconnect false true ⟨clearedNVS, "", "", true, false, true, true, 0⟩ rfl

/-- C7: saving a well-formed identity within the length bounds and loading
immediately afterwards returns exactly that identity. -/
theorem save_load_roundtrip (nvs : NVS) (id : NetworkIdentity)
    (hpos : 0 < id.name.length) (hn : id.name.length ≤ 32) (hs : id.secret.length ≤ 64) :
    loadCredentials (saveCredentials nvs id.name id.secret) = (id.name, id.secret) := by
  simp [loadCredentials, saveCredentials]

/-- Witness for C7 with the identity from the spec's Scenario B. -/
theorem save_load_roundtrip_witness :
    loadCredentials (saveCredentials clearedNVS "home" "secret123") = ("home", "secret123") :=
  save_load_roundtrip clearedNVS ⟨"home", "secret123"⟩ (by decide) (by decide) (by decide)

/-- Counterexample to C1: submitting an empty name from the fresh portal
state does invoke the station connector (`handleConnect` has no
server-side empty-name guard, lines 427-472). -/
theorem handleConnect_empty_name_cex :
    (handleConnect false "" "pw" ⟨clearedNVS, "", "", true, false, true, true, 0⟩).connectAttempts
      ≠ 0 := by
  decide

/-- C1 (amended): `handleConnect` performs no empty-name validation: a
submission whose name is the empty string still saves the credentials and
invokes the station connector exactly once; the submission resolves to
failure only when the connection attempt itself fails, in which case the
portal is re-entered. -/
theorem handleConnect_empty_name_no_guard (radioOk : Bool) (p : String) (s : DeviceState) :
    (handleConnect radioOk "" p s).connectAttempts = s.connectAttempts + 1 ∧
    (handleConnect false "" p s).configMode = true ∧
    currentMode (handleConnect false "" p s) = ConnectivityMode.PortalActive := by
  refine ⟨?_, ?_, ?_⟩ <;>
    cases radioOk <;>
      simp [handleConnect, submittedState, saveCredentialsState, saveCredentials,
        connectToWiFi, startConfigPortal, currentMode]

/-- Counterexample to C2: from a connected state whose store holds
`("home", "secret123")`, a submission of `("office", "pw")` whose attempt
fails leaves the store holding the new pair, not the previous one —
`handleConnect` saves before attempting (line 465). -/
theorem handleConnect_failed_overwrite_cex :
    (handleConnect false "office" "pw"
        ⟨⟨some "home", some "secret123"⟩, "home", "secret123", false, true, false, false, 1⟩).nvs
      ≠ ⟨some "home", some "secret123"⟩ := by
  decide

/-- C2 (amended): the credential store is written with the submitted
identity unconditionally, before the connection attempt: after every
submission, whether the attempt succeeds or fails, the store holds
exactly the submitted identity. A failed attempt therefore overwrites the
previously stored credential instead of leaving it unchanged. -/
theorem handleConnect_persists_before_attempt (radioOk : Bool) (n p : String) (s : DeviceState) :
    (handleConnect radioOk n p s).nvs = saveCredentials s.nvs n p ∧
    loadCredentials (handleConnect radioOk n p s).nvs = (n, p) := by
  cases radioOk <;>
    simp [handleConnect, submittedState, saveCredentialsState, saveCredentials,
      loadCredentials, connectToWiFi, startConfigPortal]

/-- Modelled from the spec: the captive resolver is the built-in Arduino
`DNSServer` library, used at lines 195 (`dnsServer.start(DNS_PORT, "*",
WiFi.softAPIP())`) and 94 (`dnsServer.processNextRequest()`); its
implementation is not part of this repository. Per spec section 4.4 it
answers any queued name-resolution query with the device's own local
address regardless of the queried name, and a pass with no pending query
returns immediately without changing state. `localAddress` is the bound
soft-AP address, `pending` the queued queries, `answered` the responses
sent so far. -/
structure ResolverState where
  localAddress : Nat
  pending : List String
  answered : List (String × Nat)
deriving DecidableEq

/-- Modelled from the spec: one `dnsServer.processNextRequest()` pass —
answer the next queued query, if any, with `localAddress`. -/
def processNextRequest (r : ResolverState) : ResolverState :=
  match r.pending with
  | [] => r
  | q :: rest => ⟨r.localAddress, rest, (q, r.localAddress) :: r.answered⟩

/-- C8: a servicing pass with no pending query returns the resolver state
unchanged, and a pass with a pending query answers it with the device's
own local address regardless of the queried name. -/
theorem resolver_wildcard_and_idle (a : Nat) (ans : List (String × Nat)) :
    processNextRequest ⟨a, [], ans⟩ = ⟨a, [], ans⟩ ∧
    ∀ (q : String) (rest : List String),
      processNextRequest ⟨a, q :: rest, ans⟩ = ⟨a, rest, (q, a) :: ans⟩ := by
  exact ⟨rfl, fun q rest => rfl⟩

/-- Lines 155-160 of `connectToWiFi`: the wait loop. `status k` is the
k-th reading of `WiFi.status() == WL_CONNECTED`, `elapsed` the value of
`millis() - startTime`; each iteration is `delay(500)`. Returns the
reading index and elapsed time at exit. Termination is by the remaining
time to the deadline. -/
def connectWait (status : Nat → Bool) (k : Nat) (elapsed : Nat) : Nat × Nat :=
  if status k = true then (k, elapsed)
  else if elapsed < WIFI_TIMEOUT then connectWait status (k + 1) (elapsed + 500)
  else (k, elapsed)
termination_by WIFI_TIMEOUT - elapsed
decreasing_by simp_wf; omega

lemma connectWait_spec_aux (status : Nat → Bool) :
    ∀ (n k : Nat), 20 - k = n → k ≤ 20 →
      (connectWait status k (500 * k)).1 ≤ 20 ∧
      (connectWait status k (500 * k)).2 = 500 * (connectWait status k (500 * k)).1 ∧
      (status (connectWait status k (500 * k)).1 = true ∨
        WIFI_TIMEOUT ≤ (connectWait status k (500 * k)).2) := by
  intro n
  induction n with
  | zero =>
      intro k hn hk
      have hk20 : k = 20 := by omega
      subst hk20
      rw [connectWait]
      by_cases hs : status 20 = true
      · simp [hs]
      · simp [hs, WIFI_TIMEOUT]
  | succ n ih =>
      intro k hn hk
      have hklt : k < 20 := by omega
      rw [connectWait]
      by_cases hs : status k = true
      · simp [hs]
        omega
      · have hlt : 500 * k < WIFI_TIMEOUT := by
          unfold WIFI_TIMEOUT
          omega
        have h500 : 500 * k + 500 = 500 * (k + 1) := by ring
        simp only [hs, if_false, hlt, if_true, h500]
        exact ih (k + 1) (by omega) (by omega)

/-- C9: the `connectToWiFi` wait loop terminates for every sequence of
radio status readings: it takes at most 20 polls (`WIFI_TIMEOUT / 500`),
its elapsed time never exceeds `WIFI_TIMEOUT`, and at exit either the
radio reported connected or the deadline was reached. -/
theorem connectWait_terminates_bounded (status : Nat → Bool) :
    (connectWait status 0 0).1 ≤ 20 ∧
    (connectWait status 0 0).2 ≤ WIFI_TIMEOUT ∧
    (status (connectWait status 0 0).1 = true ∨
      WIFI_TIMEOUT ≤ (connectWait status 0 0).2) := by
  have h := connectWait_spec_aux status 20 0 rfl (by omega)
  rw [Nat.mul_zero] at h
  refine ⟨h.1, ?_, h.2.2⟩
  have h1 := h.1
  have h2 := h.2.1
  unfold WIFI_TIMEOUT
  omega

/-- Lines 493-496 of `handleGPIOAPI`: one array element of the response,
`{"gpio":<pin>,"state":"HIGH"|"LOW"}`, where `high` is the `digitalRead`
result compared with `HIGH`. -/
def pinEntry (pin : Nat) (high : Bool) : String :=
  "\x7b\"gpio\":" ++ toString pin ++ ",\"state\":\"" ++
    (if high then "HIGH" else "LOW") ++ "\"\x7d"

/-- Lines 490-497 of `handleGPIOAPI`: the loop over `GPIO_PINS`; `first`
mirrors the `if (i > 0) json += ","` separator logic. -/
def pinsJsonAux (readPin : Nat → Bool) : Bool → List Nat → String
  | _, [] => ""
  | first, p :: rest =>
      (if first then "" else ",") ++ pinEntry p (readPin p) ++ pinsJsonAux readPin false rest

/-- Lines 487-502 `handleGPIOAPI`: the full JSON body sent with
`server.send(200, "application/json", json)`. `readPin p` is the
`digitalRead(p) == HIGH` reading; the handler reads nothing else. -/
def handleGPIOAPI (readPin : Nat → Bool) : String :=
  "\x7b\"pins\":[" ++ pinsJsonAux readPin true GPIO_PINS ++ "]\x7d"

/-- A small JSON value grammar, used to state well-formedness of the
endpoint's output. -/
inductive Json where
  | str : String → Json
  | num : Nat → Json
  | arr : List Json → Json
  | obj : List (String × Json) → Json

mutual

/-- Standard rendering of a JSON value. -/
def Json.render : Json → String
  | Json.str s => "\"" ++ s ++ "\""
  | Json.num n => toString n
  | Json.arr xs => "[" ++ Json.renderItems xs ++ "]"
  | Json.obj fs => "\x7b" ++ Json.renderFields fs ++ "\x7d"

/-- Comma-separated rendering of array elements. -/
def Json.renderItems : List Json → String
  | [] => ""
  | [x] => Json.render x
  | x :: y :: xs => Json.render x ++ "," ++ Json.renderItems (y :: xs)

/-- Comma-separated rendering of object fields. -/
def Json.renderFields : List (String × Json) → String
  | [] => ""
  | [(k, v)] => "\"" ++ k ++ "\":" ++ Json.render v
  | (k, v) :: f :: fs => "\"" ++ k ++ "\":" ++ Json.render v ++ "," ++ Json.renderFields (f :: fs)

end

/-- C10: for every vector of digital readings, `handleGPIOAPI` produces
exactly the rendering of a well-formed JSON object with a single `pins`
field holding one entry per pin of `GPIO_PINS` in its fixed order
`[0, 1, 3, 4, 5]` (so exactly five entries), each with the pin number and
a `state` string that is `HIGH` precisely when the reading is high; the
output depends on nothing but the five readings. -/
theorem handleGPIOAPI_wellformed (readPin : Nat → Bool) :
    handleGPIOAPI readPin =
      (Json.obj [("pins", Json.arr (GPIO_PINS.map (fun p =>
        Json.obj [("gpio", Json.num p),
                  ("state", Json.str (if readPin p then "HIGH" else "LOW"))])))]).render ∧
    GPIO_PINS = [0, 1, 3, 4, 5] ∧
    GPIO_PINS.length = NUM_PINS := by
  refine ⟨?_, rfl, rfl⟩
  cases h0 : readPin 0 <;> cases h1 : readPin 1 <;> cases h3 : readPin 3 <;>
    cases h4 : readPin 4 <;> cases h5 : readPin 5 <;>
      simp only [handleGPIOAPI, pinsJsonAux, pinEntry, GPIO_PINS, List.map,
        Json.render, Json.renderItems, Json.renderFields, h0, h1, h3, h4, h5] <;>
      rfl

end Esp32Gpio
